import Mathlib

/-!
Verification development for the Cards Against Humanity room/round
coordinator (a React client issuing commands against a shared Supabase
store).  The relevant source functions live in
`src/pages/GamePage.jsx` (`startGame`, `createActiveRound`, `submitCard`,
`selectWinner`, `nextRound`), `src/utils/gameUtils.js` (`startGame`,
`submitCard`, `selectWinner`, `replenishAllPlayerHands`, `rotateJudge`,
`createNewRound`), and the store-level constraints in
`fix_one_active_round_per_room.sql` and `fix_submissions_rls.sql`.

The embedding models the durable store tables (`rounds`, `room_players`,
`player_hands`, `submissions`) as explicit lists of rows, the
store-level constraints as guards on the insert operations, and each
client operation as a function on that state.  Randomness (card
shuffles, black-card draws) is passed in as an explicit parameter.
-/

namespace CAH

/-- Round status as stored in the `rounds.status` column:
`"submitting"` while players submit, `"completed"` once the judge has
picked a winner. -/
inductive RoundStatus
  | submitting
  | completed
deriving DecidableEq, Repr

/-- A row of the `rounds` table (columns used by the game logic). -/
structure RoundRow where
  id : Nat
  roomId : Nat
  blackCardId : Nat
  judgeProfileId : Nat
  winnerProfileId : Option Nat
  status : RoundStatus
deriving DecidableEq, Repr

/-- Number of rows of `rounds` with the given `room_id` and
`status = 'submitting'` (the set constrained by the partial unique
index `rounds_one_submitting_per_room`). -/
def countSubmitting (rounds : List RoundRow) (roomId : Nat) : Nat :=
  (rounds.filter fun r => decide (r.roomId = roomId ∧ r.status = RoundStatus.submitting)).length

/-- Store-level insert into `rounds`, honoring the partial unique index
`rounds_one_submitting_per_room` from `fix_one_active_round_per_room.sql`
(`CREATE UNIQUE INDEX ... ON rounds (room_id) WHERE status = 'submitting'`):
inserting a `submitting` row is rejected (Postgres error 23505) when the
room already has one.  `none` models the rejected insert. -/
def insertRound (rounds : List RoundRow) (r : RoundRow) : Option (List RoundRow) :=
  if r.status = RoundStatus.submitting ∧ countSubmitting rounds r.roomId ≠ 0 then
    none
  else
    some (rounds ++ [r])

/-- `createActiveRound` (GamePage.jsx, lines 218-330), projected onto the
`rounds` table.  The source first reads `rounds` for an existing
`submitting` row for the room and returns `null` if one is found; then it
inserts the new round and, when the insert is rejected by the unique
constraint (`23505` / `rounds_one_submitting_per_room`), treats the race
loss gracefully and again returns `null`.  `checkMissed` models the
staleness of the initial guard read under concurrency: `false` means the
guard observed the current store state, `true` means the read predated a
racing insert and saw no active round.  (In an interleaving of round
creations a stale read can only miss rounds, never see extra ones, since
round rows are never deleted.) -/
def createActiveRound (rounds : List RoundRow) (roomId judgeProfileId blackCardId newId : Nat)
    (checkMissed : Bool) : List RoundRow × Option RoundRow :=
  if checkMissed = false ∧ countSubmitting rounds roomId ≠ 0 then
    (rounds, none)
  else
    let r : RoundRow :=
      { id := newId, roomId := roomId, blackCardId := blackCardId,
        judgeProfileId := judgeProfileId, winnerProfileId := none,
        status := RoundStatus.submitting }
    match insertRound rounds r with
    | none => (rounds, none)
    | some rs => (rs, some r)

/-- A sequence of `createActiveRound` calls on one room: each call brings a
judge id and the staleness flag of its guard read. -/
def runCreates (rounds : List RoundRow) (roomId : Nat) (calls : List (Nat × Bool)) :
    List RoundRow :=
  calls.foldl (fun rs c => (createActiveRound rs roomId c.1 0 0 c.2).1) rounds

theorem countSubmitting_append (rounds : List RoundRow) (r : RoundRow) (roomId : Nat) :
    countSubmitting (rounds ++ [r]) roomId =
      countSubmitting rounds roomId +
        (if r.roomId = roomId ∧ r.status = RoundStatus.submitting then 1 else 0) := by
  simp only [countSubmitting, List.filter_append, List.length_append]
  by_cases h : r.roomId = roomId ∧ r.status = RoundStatus.submitting
  · simp [h]
  · simp [h]

theorem countSubmitting_createActiveRound (rounds : List RoundRow)
    (roomId j b i : Nat) (m : Bool) :
    countSubmitting (createActiveRound rounds roomId j b i m).1 roomId =
      max (countSubmitting rounds roomId) 1 := by
  unfold createActiveRound insertRound
  by_cases hc : countSubmitting rounds roomId = 0
  · simp [hc, countSubmitting_append]
  · have h1 : 1 ≤ countSubmitting rounds roomId := Nat.one_le_iff_ne_zero.mpr hc
    rcases m with _ | _ <;> simp [hc, Nat.max_eq_left h1]

theorem countSubmitting_runCreates (rounds : List RoundRow) (roomId : Nat)
    (calls : List (Nat × Bool)) (hne : calls ≠ []) :
    countSubmitting (runCreates rounds roomId calls) roomId =
      max (countSubmitting rounds roomId) 1 := by
  induction calls generalizing rounds with
  | nil => exact absurd rfl hne
  | cons c cs ih =>
    rcases cs with _ | ⟨c', cs'⟩
    · simpa [runCreates] using countSubmitting_createActiveRound rounds roomId c.1 0 0 c.2
    · have hstep :
          runCreates rounds roomId (c :: c' :: cs') =
            runCreates (createActiveRound rounds roomId c.1 0 0 c.2).1 roomId (c' :: cs') := by
        simp [runCreates]
      rw [hstep, ih _ (by simp), countSubmitting_createActiveRound]
      simp [Nat.max_assoc]

/-- C2: for every room, at most one `rounds` row with status `submitting`
exists, and any nonempty sequence of (possibly racing, possibly
stale-guarded) `createActiveRound` calls starting from a room with no
active round leaves exactly one `submitting` round — enforced by the
storage-level partial unique index rather than the application guard
alone (the calls with `checkMissed = true` bypass the application guard
entirely and are still stopped by the constraint-guarded insert). -/
theorem c2_single_active_round (rounds : List RoundRow) (roomId : Nat)
    (calls : List (Nat × Bool)) (h1 : countSubmitting rounds roomId ≤ 1) :
    countSubmitting (runCreates rounds roomId calls) roomId ≤ 1 ∧
      (countSubmitting rounds roomId = 0 → calls ≠ [] →
        countSubmitting (runCreates rounds roomId calls) roomId = 1) := by
  constructor
  · rcases calls with _ | ⟨c, cs⟩
    · simpa [runCreates] using h1
    · rw [countSubmitting_runCreates rounds roomId (c :: cs) (by simp)]
      omega
  · intro h0 hne
    rw [countSubmitting_runCreates rounds roomId calls hne, h0]
    simp

theorem c2_single_active_round_witness :
    countSubmitting [] 1 ≤ 1 ∧
      (countSubmitting (runCreates [] 1 [(5, false), (6, true), (7, false)]) 1 ≤ 1 ∧
        (countSubmitting ([] : List RoundRow) 1 = 0 → [(5, false), (6, true), (7, false)] ≠ [] →
          countSubmitting (runCreates [] 1 [(5, false), (6, true), (7, false)]) 1 = 1)) :=
  ⟨by decide, c2_single_active_round [] 1 [(5, false), (6, true), (7, false)] (by decide)⟩

/-- A pre-existing `submitting` round, used to exhibit the race-loss
return value of `createActiveRound`. -/
def existingRound : RoundRow :=
  { id := 7, roomId := 1, blackCardId := 3, judgeProfileId := 2,
    winnerProfileId := none, status := RoundStatus.submitting }

/-- C7 counterexample: with a `submitting` round already present for the
room, `createActiveRound` returns `null` (no round) — on both the guard
path and the constraint-rejection path — not the pre-existing round, so
the claim that the race loser "returns the pre-existing Submitting round
(re-fetched) as its result, rather than returning nothing" fails on the
code (the source's race branches read `await loadGameData(); return null;`). -/
theorem c7_raceLoss_counterexample :
    (createActiveRound [existingRound] 1 4 9 8 false).2 = none ∧
      (createActiveRound [existingRound] 1 4 9 8 true).2 = none ∧
      (createActiveRound [existingRound] 1 4 9 8 false).2 ≠ some existingRound ∧
      (createActiveRound [existingRound] 1 4 9 8 true).2 ≠ some existingRound := by
  decide

/-- C7 amended: if a `submitting` round already exists for the room when
`createActiveRound` runs — whether the application guard sees it or the
insert is rejected by the `rounds_one_submitting_per_room` constraint —
the operation does not error and does not change the `rounds` table, but
its result is `null` (no round); the pre-existing round reaches the
client through the `loadGameData` refresh, not through the return
value. -/
theorem c7_raceLoss_noop (rounds : List RoundRow) (roomId j b i : Nat) (m : Bool)
    (h : 0 < countSubmitting rounds roomId) :
    createActiveRound rounds roomId j b i m = (rounds, none) := by
  have hne : countSubmitting rounds roomId ≠ 0 := Nat.pos_iff_ne_zero.mp h
  unfold createActiveRound insertRound
  rcases m with _ | _ <;> simp [hne]

theorem c7_raceLoss_noop_witness :
    0 < countSubmitting [existingRound] 1 ∧
      createActiveRound [existingRound] 1 4 9 8 false = ([existingRound], none) :=
  ⟨by decide, c7_raceLoss_noop [existingRound] 1 4 9 8 false (by decide)⟩

/-! ### Judge rotation (`nextRound`, GamePage.jsx lines 541-604) -/

/-- The judge-rotation computation of `nextRound` (GamePage.jsx, lines
541-604).  The room's players ordered ascending by `joined_at` form the
rotation ring; the most recent completed round's `judge_profile_id` is
looked up in that ring with `findIndex` and the next judge is the player
at index `(currentJudgeIndex + 1) % allPlayers.length`.  The source
throws when the roster is empty, when the judge id is absent from the
roster (JS `findIndex` yields `-1`; `List.indexOf` yields
`players.length`), and when the rotation would return the same judge. -/
def nextRoundJudge (players : List Nat) (completedJudgeId : Nat) : Except String Nat :=
  if players.length = 0 then
    Except.error "No players found"
  else
    let currentJudgeIndex := players.indexOf completedJudgeId
    if currentJudgeIndex = players.length then
      Except.error "Current judge not found in players list"
    else
      let nextJudgeIndex := (currentJudgeIndex + 1) % players.length
      let nextJudge := players.getD nextJudgeIndex 0
      if nextJudge = completedJudgeId then
        Except.error "Judge rotation failed: Next judge is same as current judge!"
      else
        Except.ok nextJudge

theorem rotation_index_ne {i n : Nat} (hi : i < n) (hn : 1 < n) : (i + 1) % n ≠ i := by
  rcases Nat.lt_or_ge (i + 1) n with h | h
  · rw [Nat.mod_eq_of_lt h]
    omega
  · have : i + 1 = n := by omega
    rw [this, Nat.mod_self]
    omega

/-- C3: with `n` players on the rotation ring (ordered by join time,
distinct ids) and the most recent completed round's judge at ring-index
`i`, `nextRound` rotates to the player at index `(i + 1) % n`; the index
formula wraps from the last index to `0`, and with `n > 1` the next
judge differs from the previous one. -/
theorem c3_judge_rotation (players : List Nat) (judgeId i : Nat)
    (hi : i < players.length) (hnd : players.Nodup)
    (hget : players.get ⟨i, hi⟩ = judgeId) (hn : 1 < players.length) :
    nextRoundJudge players judgeId =
        Except.ok (players.getD ((i + 1) % players.length) 0) ∧
      players.getD ((i + 1) % players.length) 0 ≠ judgeId ∧
      (i + 1 = players.length → (i + 1) % players.length = 0) := by
  have hn0 : players.length ≠ 0 := by omega
  have hmem : judgeId ∈ players := hget ▸ players.get_mem i hi
  have hidxlt : players.indexOf judgeId < players.length :=
    List.indexOf_lt_length.mpr hmem
  have hidx : players.indexOf judgeId = i := by
    have hgi : players.get ⟨players.indexOf judgeId, hidxlt⟩ = judgeId :=
      List.indexOf_get hidxlt
    have h2 := hnd.get_inj_iff.mp (hgi.trans hget.symm)
    exact congrArg Fin.val h2
  have hjlt : (i + 1) % players.length < players.length :=
    Nat.mod_lt _ (by omega)
  have hgetD : players.getD ((i + 1) % players.length) 0 =
      players.get ⟨(i + 1) % players.length, hjlt⟩ := by
    simp [List.getD_eq_getElem?_getD, List.getElem?_eq_getElem hjlt]
  have hne : players.getD ((i + 1) % players.length) 0 ≠ judgeId := by
    rw [hgetD, ← hget]
    intro h
    have h2 := hnd.get_inj_iff.mp h
    exact rotation_index_ne hi hn (congrArg Fin.val h2)
  refine ⟨?_, hne, fun h => by rw [h, Nat.mod_self]⟩
  unfold nextRoundJudge
  simp only [hn0, if_false, hidx]
  have : ¬ i = players.length := by omega
  simp only [this, if_false]
  simp only [hne, if_false]

theorem c3_judge_rotation_witness :
    nextRoundJudge [10, 20, 30] 30 = Except.ok ([10, 20, 30].getD ((2 + 1) % 3) 0) ∧
      [10, 20, 30].getD ((2 + 1) % 3) 0 ≠ 30 ∧
      (2 + 1 = 3 → (2 + 1) % 3 = 0) :=
  c3_judge_rotation [10, 20, 30] 30 2 (by decide) (by decide) (by decide) (by decide)

/-- C8 counterexample: roster `[10, 20, 30]` (ordered by join time) and a
departed judge `99` — `nextRound`'s rotation throws "Current judge not
found in players list" instead of falling back to the ring-index-0
player: the result is not `Except.ok 10`, the thrown error aborts
`nextRound`, and no next round is created.  The claimed fallback-to-index-0
caller policy does not exist in GamePage.jsx (lines 576-578 throw). -/
theorem c8_departed_judge_counterexample :
    nextRoundJudge [10, 20, 30] 99 = Except.error "Current judge not found in players list" ∧
      nextRoundJudge [10, 20, 30] 99 ≠ Except.ok 10 := by
  constructor
  · rfl
  · intro h
    rw [show nextRoundJudge [10, 20, 30] 99 =
        Except.error "Current judge not found in players list" from rfl] at h
    exact Except.noConfusion h

/-- C8 amended: when the previous round's judge id is missing from the
(nonempty) roster, `nextRound` fails with the typed error "Current judge
not found in players list" and aborts; there is no fallback to the
player at ring-index 0, so round advancement does not proceed from this
code path.  (The legacy `gameUtils.rotateJudge` path, keyed on the
`is_judge` flag, does land on index 0 via `(-1 + 1) % n`, but the
GamePage `nextRound` path named by the claim throws.) -/
theorem c8_departed_judge_aborts (players : List Nat) (judgeId : Nat)
    (hne : players ≠ []) (habs : judgeId ∉ players) :
    nextRoundJudge players judgeId =
      Except.error "Current judge not found in players list" := by
  have hn0 : players.length ≠ 0 := by
    simpa [List.length_eq_zero] using hne
  have hidx : players.indexOf judgeId = players.length :=
    List.indexOf_eq_length.mpr habs
  unfold nextRoundJudge
  simp [hn0, hidx]

theorem c8_departed_judge_aborts_witness :
    ([10, 20, 30] : List Nat) ≠ [] ∧
      nextRoundJudge [10, 20, 30] 99 =
        Except.error "Current judge not found in players list" :=
  ⟨by decide, c8_departed_judge_aborts [10, 20, 30] 99 (by decide) (by decide)⟩

/-! ### The durable store: rooms, roster, hands, submissions -/

/-- Room status as stored in the `rooms.status` column
(`"waiting"` or `"playing"`). -/
inductive RoomStatus
  | waiting
  | playing
deriving DecidableEq, Repr

/-- A row of the `rooms` table (columns used by the game logic). -/
structure RoomRow where
  id : Nat
  deckId : Nat
  status : RoomStatus
deriving DecidableEq, Repr

/-- A row of the `room_players` table.  `roomPlayers` lists are kept in
ascending `joined_at` order, matching the `.order("joined_at")` reads. -/
structure PlayerRow where
  roomId : Nat
  profileId : Nat
  isJudgeFlag : Bool
  score : Nat
deriving DecidableEq, Repr

/-- A row of the `player_hands` table, reduced to the
`(room_id, profile_id, white_card_id)` triple constrained by
`player_hands_room_profile_white_unique`. -/
structure HandRow where
  roomId : Nat
  profileId : Nat
  whiteCardId : Nat
deriving DecidableEq, Repr

/-- A row of the `submissions` table (one card per submission). -/
structure SubmissionRow where
  roundId : Nat
  profileId : Nat
  whiteCardId : Nat
deriving DecidableEq, Repr

/-- The shared durable store. -/
structure DB where
  rooms : List RoomRow
  rounds : List RoundRow
  roomPlayers : List PlayerRow
  playerHands : List HandRow
  submissions : List SubmissionRow
deriving DecidableEq, Repr

/-- White card ids currently in a player's hand in a room. -/
def handOf (hands : List HandRow) (roomId profileId : Nat) : List Nat :=
  (hands.filter fun h => decide (h.roomId = roomId ∧ h.profileId = profileId)).map
    (·.whiteCardId)

/-- Store-level insert into `player_hands`: the unique constraint
`player_hands_room_profile_white_unique` rejects a duplicate
`(room_id, profile_id, white_card_id)` triple, and the replenish loop in
`nextRound` ignores those duplicate-key errors (codes 23505 / PGRST116),
so a duplicate insert is a no-op. -/
def insertHand (hands : List HandRow) (h : HandRow) : List HandRow :=
  if h ∈ hands then hands else hands ++ [h]

/-- The `WITH CHECK` condition of the row-level-security policy
`submissions_insert_own` (fix_submissions_rls.sql): a submission insert
is allowed only into a `submitting` round of a room the submitter
belongs to, and only while the submitter's `is_judge` flag is `false`
("Judges can't submit"). -/
def rlsAllows (db : DB) (s : SubmissionRow) : Prop :=
  ∃ r ∈ db.rounds, r.id = s.roundId ∧ r.status = RoundStatus.submitting ∧
    ∃ rp ∈ db.roomPlayers, rp.roomId = r.roomId ∧ rp.profileId = s.profileId ∧
      rp.isJudgeFlag = false

instance (db : DB) (s : SubmissionRow) : Decidable (rlsAllows db s) := by
  unfold rlsAllows
  infer_instance

/-- Store-level insert into `submissions`, subject to the
`submissions_insert_own` policy; `none` models the rejected insert. -/
def insertSubmission (db : DB) (s : SubmissionRow) : Option DB :=
  if rlsAllows db s then some { db with submissions := db.submissions ++ [s] } else none

/-- `submitCard` (GamePage.jsx, lines 335-384): abort if this player
already has a submission in the round; insert the submission (the store
applies the `submissions_insert_own` policy); then delete the card from
the player's hand filtered by `profile_id`, `white_card_id` **and**
`room_id`.  The returned Bool is whether the submission was created;
failures leave the store unchanged. -/
def gpSubmitCard (db : DB) (roundId profileId whiteCardId roomId : Nat) : DB × Bool :=
  if db.submissions.any fun s => decide (s.roundId = roundId ∧ s.profileId = profileId) then
    (db, false)
  else
    match insertSubmission db { roundId := roundId, profileId := profileId,
                                whiteCardId := whiteCardId } with
    | none => (db, false)
    | some db1 =>
      ({ db1 with playerHands := db1.playerHands.filter (fun h =>
          decide (¬ (h.profileId = profileId ∧ h.whiteCardId = whiteCardId ∧
            h.roomId = roomId))) }, true)

/-- `submitCard` (gameUtils.js, lines 175-214): same submission checks,
but the hand deletion filters only on `profile_id` and `white_card_id` —
there is no `room_id` condition (lines 200-207) — so it removes the card
from the player's hands in every room. -/
def guSubmitCard (db : DB) (roundId profileId whiteCardId : Nat) : DB × Bool :=
  if db.submissions.any fun s => decide (s.roundId = roundId ∧ s.profileId = profileId) then
    (db, false)
  else
    match insertSubmission db { roundId := roundId, profileId := profileId,
                                whiteCardId := whiteCardId } with
    | none => (db, false)
    | some db1 =>
      ({ db1 with playerHands := db1.playerHands.filter (fun h =>
          decide (¬ (h.profileId = profileId ∧ h.whiteCardId = whiteCardId))) }, true)

/-- C10: the library submit path does not scope card consumption to the
round's room — after a successful `gameUtils.submitCard`, no
`player_hands` row pairing this player with this white card survives in
any room, so a player holding the same card id in two rooms loses it in
both. -/
theorem c10_cross_room_consumption (db : DB) (roundId p c : Nat)
    (hok : (guSubmitCard db roundId p c).2 = true) :
    ∀ h ∈ (guSubmitCard db roundId p c).1.playerHands,
      ¬ (h.profileId = p ∧ h.whiteCardId = c) := by
  intro h hmem
  unfold guSubmitCard at hok hmem
  by_cases hex : (db.submissions.any fun s =>
      decide (s.roundId = roundId ∧ s.profileId = p)) = true
  · rw [if_pos hex] at hok
    simp at hok
  · rw [if_neg hex] at hok hmem
    rcases hins : insertSubmission db ⟨roundId, p, c⟩ with _ | db1
    · rw [hins] at hok
      simp at hok
    · rw [hins] at hmem
      simp only [List.mem_filter, decide_eq_true_eq] at hmem
      exact hmem.2

/-- A store with one `submitting` round in room 1 and player 1 holding
white card 5 in both room 1 and room 2. -/
def db10 : DB :=
  { rooms := [⟨1, 1, RoomStatus.playing⟩, ⟨2, 1, RoomStatus.playing⟩],
    rounds := [⟨1, 1, 5, 3, none, RoundStatus.submitting⟩],
    roomPlayers := [⟨1, 1, false, 0⟩],
    playerHands := [⟨1, 1, 5⟩, ⟨2, 1, 5⟩],
    submissions := [] }

theorem c10_cross_room_consumption_witness :
    (guSubmitCard db10 1 1 5).2 = true ∧
      ∀ h ∈ (guSubmitCard db10 1 1 5).1.playerHands,
        ¬ (h.profileId = 1 ∧ h.whiteCardId = 5) :=
  ⟨by decide, c10_cross_room_consumption db10 1 1 5 (by decide)⟩

/-! ### Judge flags and judge self-submission -/

/-- `UPDATE room_players SET is_judge = false WHERE room_id = roomId`:
the flag-clearing step of `createActiveRound` and `nextRound`. -/
def clearJudgeFlags (db : DB) (roomId : Nat) : DB :=
  { db with roomPlayers := db.roomPlayers.map (fun rp =>
      if rp.roomId = roomId then { rp with isJudgeFlag := false } else rp) }

/-- `UPDATE room_players SET is_judge = true WHERE room_id = roomId AND
profile_id = judgeId`: the flag-setting step of `createActiveRound` and
`nextRound`. -/
def setJudgeFlag (db : DB) (roomId judgeId : Nat) : DB :=
  { db with roomPlayers := db.roomPlayers.map (fun rp =>
      if rp.roomId = roomId ∧ rp.profileId = judgeId then { rp with isJudgeFlag := true }
      else rp) }

/-- The constraint-guarded round insert lifted to the full store; a
rejected insert leaves the store unchanged (the rejection is handled as
a race loss by `createActiveRound`'s duplicate-error branch). -/
def dbInsertRound (db : DB) (r : RoundRow) : DB :=
  match insertRound db.rounds r with
  | none => db
  | some rs => { db with rounds := rs }

/-- The store state produced by two racing `createActiveRound` calls on
room 1 (roster: players 1, 2, 3 in join order, player 1 holding white
card 42).  Client A runs `createActiveRound` for judge 1; client B runs
it for judge 2, and B's guard read happens before A's insert, so it sees
no active round and proceeds.  The writes reach the store in order: A's
flag clear + set + successful round insert, then B's flag clear + set +
constraint-rejected round insert (handled as a race loss, `return null`).
Result: round 1 has `judge_profile_id = 1`, but the advisory `is_judge`
flag marks player 2. -/
def dbRace : DB :=
  let s0 : DB :=
    { rooms := [⟨1, 1, RoomStatus.playing⟩],
      rounds := [],
      roomPlayers := [⟨1, 1, false, 0⟩, ⟨1, 2, false, 0⟩, ⟨1, 3, false, 0⟩],
      playerHands := [⟨1, 1, 42⟩],
      submissions := [] }
  let s3 := dbInsertRound (setJudgeFlag (clearJudgeFlags s0 1) 1 1)
    ⟨1, 1, 5, 1, none, RoundStatus.submitting⟩
  dbInsertRound (setJudgeFlag (clearJudgeFlags s3 1) 1 2)
    ⟨2, 1, 6, 2, none, RoundStatus.submitting⟩

/-- C6 counterexample: after the `dbRace` interleaving of two racing
`createActiveRound` calls, round 1 is `submitting` with
`judge_profile_id = 1` while player 1's advisory `is_judge` flag is
`false` (the flag marks player 2).  Neither `submitCard` implementation
checks the round's `judge_profile_id`, and the store's
`submissions_insert_own` policy keys on the flag, so the round's judge
(player 1) successfully submits into their own round and a Submission
row owned by the round's judge exists — refuting both "the judge of
round r can never have a Submission row for round r" and "submit with
playerId equal to the round's judge fails and creates no Submission". -/
theorem c6_judge_selfsubmission_counterexample :
    (⟨1, 1, 5, 1, none, RoundStatus.submitting⟩ : RoundRow) ∈ dbRace.rounds ∧
      (∀ rp ∈ dbRace.roomPlayers, rp.profileId = 1 → rp.isJudgeFlag = false) ∧
      (gpSubmitCard dbRace 1 1 42 1).2 = true ∧
      (⟨1, 1, 42⟩ : SubmissionRow) ∈ (gpSubmitCard dbRace 1 1 42 1).1.submissions := by
  decide

/-- C6 amended: the store-level defense against judge self-submission is
the `submissions_insert_own` RLS policy keyed on the advisory `is_judge`
flag: whenever every roster row of a player carries the flag, that
player's `submitCard` is rejected and the store is left unchanged — so
in states where the flag marks the round's judge (the intended steady
state), the judge cannot submit and holds no Submission row.  The
guarantee is keyed on the flag rather than on the round's
`judge_profile_id`, and the two can diverge after a racing
`createActiveRound` (see the counterexample), in which case the round's
judge can submit. -/
theorem c6_flagged_judge_cannot_submit (db : DB) (roundId p c roomId : Nat)
    (hflag : ∀ rp ∈ db.roomPlayers, rp.profileId = p → rp.isJudgeFlag = true) :
    gpSubmitCard db roundId p c roomId = (db, false) := by
  unfold gpSubmitCard
  by_cases hex : (db.submissions.any fun s =>
      decide (s.roundId = roundId ∧ s.profileId = p)) = true
  · rw [if_pos hex]
  · rw [if_neg hex]
    have hrls : ¬ rlsAllows db ⟨roundId, p, c⟩ := by
      rintro ⟨r, hr, hid, hst, rp, hrp, hroom, hpid, hfl⟩
      rw [hflag rp hrp hpid] at hfl
      exact Bool.noConfusion hfl
    have hnone : insertSubmission db ⟨roundId, p, c⟩ = none := by
      unfold insertSubmission
      rw [if_neg hrls]
    rw [hnone]

/-- A steady state: the flag marks player 1, who is also round 1's
judge. -/
def db6 : DB :=
  { rooms := [⟨1, 1, RoomStatus.playing⟩],
    rounds := [⟨1, 1, 5, 1, none, RoundStatus.submitting⟩],
    roomPlayers := [⟨1, 1, true, 0⟩, ⟨1, 2, false, 0⟩],
    playerHands := [⟨1, 1, 42⟩],
    submissions := [] }

theorem c6_flagged_judge_cannot_submit_witness :
    (∀ rp ∈ db6.roomPlayers, rp.profileId = 1 → rp.isJudgeFlag = true) ∧
      gpSubmitCard db6 1 1 42 1 = (db6, false) :=
  ⟨by decide, c6_flagged_judge_cannot_submit db6 1 1 42 1 (by decide)⟩

/-! ### Hand replenishment (`nextRound`, GamePage.jsx lines 606-650) -/

/-- The per-player replenish loop body of `nextRound` (GamePage.jsx,
lines 606-650): read the player's current hand in the room; compute
`cardsNeeded = 10 - currentCards.length`; when positive, fetch the whole
deck's white cards, exclude only the cards in **this player's own**
current hand (`cardsInHand` is built from `currentCards`), shuffle, take
`Math.min(cardsNeeded, shuffled.length)` cards, and insert them one at a
time ignoring duplicate-key errors.  `shuffle` stands for the random
shuffle (`sort(() => Math.random() - 0.5)`); theorems quantify over
permutations. -/
def replenishPlayer (shuffle : List Nat → List Nat) (hands : List HandRow)
    (deck : List Nat) (roomId profileId : Nat) : List HandRow :=
  let currentCards := handOf hands roomId profileId
  let cardsNeeded := 10 - currentCards.length
  if cardsNeeded = 0 then hands
  else
    let availableCards := deck.filter (fun c => decide (c ∉ currentCards))
    let shuffled := shuffle availableCards
    let cardsToAdd := shuffled.take (min cardsNeeded shuffled.length)
    cardsToAdd.foldl (fun hs c => insertHand hs ⟨roomId, profileId, c⟩) hands

/-- White card ids currently in any player's hand in the room. -/
def cardsInRoomHands (hands : List HandRow) (roomId : Nat) : List Nat :=
  (hands.filter fun h => decide (h.roomId = roomId)).map (·.whiteCardId)

/-- Modelled from the spec for comparison (spec §4.1, `replenish`):
"draws `need` cards uniformly at random from {deck pool} − {cards
currently in any player's hand in the room}, and inserts them".  This
definition follows the spec's words; `replenishPlayer` above follows the
source. -/
def replenishPlayerSpec (shuffle : List Nat → List Nat) (hands : List HandRow)
    (deck : List Nat) (roomId profileId : Nat) : List HandRow :=
  let currentCards := handOf hands roomId profileId
  let cardsNeeded := 10 - currentCards.length
  if cardsNeeded = 0 then hands
  else
    let availableCards := deck.filter (fun c => decide (c ∉ cardsInRoomHands hands roomId))
    let cardsToAdd := (shuffle availableCards).take cardsNeeded
    cardsToAdd.foldl (fun hs c => insertHand hs ⟨roomId, profileId, c⟩) hands

theorem mem_handOf (hands : List HandRow) (roomId p c : Nat) :
    c ∈ handOf hands roomId p ↔ (⟨roomId, p, c⟩ : HandRow) ∈ hands := by
  unfold handOf
  simp only [List.mem_map, List.mem_filter, decide_eq_true_eq]
  constructor
  · rintro ⟨h, ⟨hmem, hr, hp⟩, hc⟩
    have heq : h = ⟨roomId, p, c⟩ := by
      cases h
      simp_all
    rwa [heq] at hmem
  · intro hmem
    exact ⟨⟨roomId, p, c⟩, ⟨hmem, rfl, rfl⟩, rfl⟩

theorem handOf_insertHand_fresh (hands : List HandRow) (roomId p c : Nat)
    (hnotin : c ∉ handOf hands roomId p) :
    handOf (insertHand hands ⟨roomId, p, c⟩) roomId p = handOf hands roomId p ++ [c] := by
  unfold insertHand
  rw [if_neg (fun hm => hnotin ((mem_handOf hands roomId p c).mpr hm))]
  unfold handOf
  simp [List.filter_append]

theorem handOf_foldl_insertHand (cs : List Nat) (hands : List HandRow) (roomId p : Nat)
    (hfresh : ∀ c ∈ cs, c ∉ handOf hands roomId p) (hndcs : cs.Nodup) :
    handOf (cs.foldl (fun hs c => insertHand hs ⟨roomId, p, c⟩) hands) roomId p =
      handOf hands roomId p ++ cs := by
  induction cs generalizing hands with
  | nil => simp
  | cons c cs ih =>
    simp only [List.foldl_cons]
    have hc : c ∉ handOf hands roomId p := hfresh c (by simp)
    have hstep := handOf_insertHand_fresh hands roomId p c hc
    have hfresh' : ∀ x ∈ cs, x ∉ handOf (insertHand hands ⟨roomId, p, c⟩) roomId p := by
      intro x hx
      rw [hstep]
      simp only [List.mem_append, List.mem_singleton]
      rintro (hx1 | hx2)
      · exact hfresh x (List.mem_cons_of_mem _ hx) hx1
      · subst hx2
        exact (List.nodup_cons.mp hndcs).1 hx
    rw [ih (insertHand hands ⟨roomId, p, c⟩) hfresh' (List.nodup_cons.mp hndcs).2, hstep]
    simp

/-- Hands for the replenish counterexamples: in room 1, player 1 holds
nine cards 11–19 (so needs one), and player 2 holds card 1. -/
def hands5 : List HandRow :=
  [⟨1, 2, 1⟩, ⟨1, 1, 11⟩, ⟨1, 1, 12⟩, ⟨1, 1, 13⟩, ⟨1, 1, 14⟩,
   ⟨1, 1, 15⟩, ⟨1, 1, 16⟩, ⟨1, 1, 17⟩, ⟨1, 1, 18⟩, ⟨1, 1, 19⟩]

/-- C5 counterexample: with white card 1 in player 2's hand and a deck
pool containing card 1, replenishing player 1 (who needs one card) deals
card 1 to player 1 even though it is currently in another player's hand
in the room — the draw pool excludes only the player's own hand, so the
source differs from the spec-worded variant on this input; and with an
empty hand (`need = 10`) and a three-card pool, only three cards are
inserted, not the claimed "exactly need". -/
theorem c5_replenish_counterexample :
    (1 ∈ handOf (replenishPlayer id hands5 [1] 1 1) 1 1 ∧
        1 ∈ handOf hands5 1 2) ∧
      replenishPlayer id hands5 [1] 1 1 ≠ replenishPlayerSpec id hands5 [1] 1 1 ∧
      ((handOf ([] : List HandRow) 1 1).length = 0 ∧
        (handOf (replenishPlayer id [] [31, 32, 33] 1 1) 1 1).length = 3) := by
  decide

/-- C5 amended: for every player, `nextRound`'s replenish computes
`cardsNeeded = 10 - currentHandSize`; if the hand is already full it
performs no insert (re-invocation on a full hand changes nothing), and
otherwise it inserts `min cardsNeeded |available|` distinct cards where
`available` is the deck's white-card pool minus only **this player's
own** current hand — cards held by other players in the room remain
drawable, and fewer than `cardsNeeded` cards are inserted when that pool
is smaller than the need. -/
theorem c5_replenish_contract (shuffle : List Nat → List Nat) (hands : List HandRow)
    (deck : List Nat) (roomId p : Nat)
    (hperm : ∀ l, (shuffle l).Perm l) (hdeck : deck.Nodup) :
    (10 ≤ (handOf hands roomId p).length →
        replenishPlayer shuffle hands deck roomId p = hands) ∧
      ((handOf hands roomId p).length < 10 →
        ∃ added : List Nat,
          handOf (replenishPlayer shuffle hands deck roomId p) roomId p =
              handOf hands roomId p ++ added ∧
            added.length = min (10 - (handOf hands roomId p).length)
              (deck.filter (fun c => decide (c ∉ handOf hands roomId p))).length ∧
            ∀ c ∈ added, c ∈ deck ∧ c ∉ handOf hands roomId p) := by
  constructor
  · intro h10
    simp only [replenishPlayer]
    rw [if_pos (by omega)]
  · intro hlt
    have hne : ¬ (10 - (handOf hands roomId p).length = 0) := by omega
    simp only [replenishPlayer]
    rw [if_neg hne]
    set available := deck.filter (fun c => decide (c ∉ handOf hands roomId p)) with havail
    set shuffled := shuffle available with hshuf
    set added := shuffled.take (min (10 - (handOf hands roomId p).length) shuffled.length)
      with hadded
    have hmemav : ∀ c ∈ added, c ∈ deck ∧ c ∉ handOf hands roomId p := by
      intro c hc
      have hsh : c ∈ shuffled := List.mem_of_mem_take hc
      have hav : c ∈ available := (hperm available).mem_iff.mp hsh
      rw [havail] at hav
      simpa using List.mem_filter.mp hav
    have hndadded : added.Nodup := by
      have hav : available.Nodup := hdeck.filter _
      have hsh : shuffled.Nodup := ((hperm available).nodup_iff).mpr hav
      exact (List.take_sublist _ _).nodup hsh
    refine ⟨added, ?_, ?_, hmemav⟩
    · exact handOf_foldl_insertHand added hands roomId p
        (fun c hc => (hmemav c hc).2) hndadded
    · rw [hadded, List.length_take]
      have hlen : shuffled.length = available.length := (hperm available).length_eq
      omega

theorem c5_replenish_contract_witness :
    (∀ l : List Nat, (id l).Perm l) ∧ ([31, 32, 33] : List Nat).Nodup ∧
      ((10 ≤ (handOf hands5 1 1).length → replenishPlayer id hands5 [31, 32, 33] 1 1 = hands5) ∧
        ((handOf hands5 1 1).length < 10 →
          ∃ added : List Nat,
            handOf (replenishPlayer id hands5 [31, 32, 33] 1 1) 1 1 =
                handOf hands5 1 1 ++ added ∧
              added.length = min (10 - (handOf hands5 1 1).length)
                (([31, 32, 33] : List Nat).filter
                  (fun c => decide (c ∉ handOf hands5 1 1))).length ∧
              ∀ c ∈ added, c ∈ ([31, 32, 33] : List Nat) ∧ c ∉ handOf hands5 1 1)) :=
  ⟨fun l => List.Perm.refl l, by decide,
    c5_replenish_contract id hands5 [31, 32, 33] 1 1 (fun l => List.Perm.refl l) (by decide)⟩

/-- A playing room where player 1 holds the full hand
`[2, 11, …, 19]` and round 1 (judge 3) is open for submissions. -/
def dbC4 : DB :=
  { rooms := [⟨1, 1, RoomStatus.playing⟩],
    rounds := [⟨1, 1, 5, 3, none, RoundStatus.submitting⟩],
    roomPlayers := [⟨1, 1, false, 0⟩, ⟨1, 3, true, 0⟩],
    playerHands := [⟨1, 1, 2⟩, ⟨1, 1, 11⟩, ⟨1, 1, 12⟩, ⟨1, 1, 13⟩, ⟨1, 1, 14⟩,
                    ⟨1, 1, 15⟩, ⟨1, 1, 16⟩, ⟨1, 1, 17⟩, ⟨1, 1, 18⟩, ⟨1, 1, 19⟩],
    submissions := [] }

/-- C4 counterexample: (a) replenishing player 1 from a pool containing
card 1 deals it to player 1 while player 2 already holds card 1 in the
same room — one white card in two players' hands; (b) player 1 submits
card 2 (consuming it: it leaves the hand), and a subsequent replenish
from a pool containing card 2 deals it straight back — a card consumed
via submission reappears in a hand in the same match. -/
theorem c4_hand_conservation_counterexample :
    (1 ∈ handOf (replenishPlayer id hands5 [1] 1 1) 1 1 ∧
        1 ∈ handOf (replenishPlayer id hands5 [1] 1 1) 1 2) ∧
      ((gpSubmitCard dbC4 1 1 2 1).2 = true ∧
        2 ∉ handOf (gpSubmitCard dbC4 1 1 2 1).1.playerHands 1 1 ∧
        2 ∈ handOf
          (replenishPlayer id (gpSubmitCard dbC4 1 1 2 1).1.playerHands [2] 1 1) 1 1) := by
  decide

theorem insertHand_nodup (hands : List HandRow) (h : HandRow) (hnd : hands.Nodup) :
    (insertHand hands h).Nodup := by
  unfold insertHand
  by_cases hm : h ∈ hands
  · rwa [if_pos hm]
  · rw [if_neg hm]
    simp [List.nodup_append, hnd, hm]

theorem foldl_insertHand_nodup (cs : List Nat) (hands : List HandRow) (roomId p : Nat)
    (hnd : hands.Nodup) :
    (cs.foldl (fun hs c => insertHand hs ⟨roomId, p, c⟩) hands).Nodup := by
  induction cs generalizing hands with
  | nil => exact hnd
  | cons c cs ih => exact ih _ (insertHand_nodup _ _ hnd)

/-- C4 amended: the hand uniqueness the code maintains is per
(room, player, card) — the `player_hands_room_profile_white_unique`
constraint, with replenish's per-row inserts ignoring duplicate-key
errors — so no duplicate hand row ever arises and a given white card
appears at most once within each single player's hand in a room.  The
uniqueness does not extend across players, and a card consumed via
submission may be re-dealt, as the counterexample shows. -/
theorem c4_per_player_hand_uniqueness (shuffle : List Nat → List Nat)
    (hands : List HandRow) (deck : List Nat) (roomId p : Nat) (hnd : hands.Nodup) :
    (replenishPlayer shuffle hands deck roomId p).Nodup := by
  simp only [replenishPlayer]
  split
  · exact hnd
  · exact foldl_insertHand_nodup _ _ _ _ hnd

theorem c4_per_player_hand_uniqueness_witness :
    hands5.Nodup ∧ (replenishPlayer id hands5 [1] 1 1).Nodup :=
  ⟨by decide, c4_per_player_hand_uniqueness id hands5 [1] 1 1 (by decide)⟩

/-! ### Winner resolution (`selectWinner`, GamePage.jsx lines 392-490) -/

/-- The winner's current score in the room (`room_players.score`). -/
def lookupScore (db : DB) (roomId p : Nat) : Option Nat :=
  (db.roomPlayers.find? (fun rp => decide (rp.roomId = roomId ∧ rp.profileId = p))).map
    (·.score)

/-- `UPDATE room_players SET score = s WHERE room_id = roomId AND
profile_id = p`: the unconditional score write of `selectWinner`
(the read value plus one is written back, not an atomic increment). -/
def setScore (db : DB) (roomId p s : Nat) : DB :=
  { db with roomPlayers := db.roomPlayers.map (fun rp =>
      if rp.roomId = roomId ∧ rp.profileId = p then { rp with score := s } else rp) }

/-- The conditional update `UPDATE rounds SET winner_profile_id,
status = 'completed' WHERE id = roundId AND status = 'submitting'`: a
zero-row match changes nothing and reports no error. -/
def completeRoundCAS (db : DB) (roundId winner : Nat) : DB :=
  { db with rounds := db.rounds.map (fun r =>
      if r.id = roundId ∧ r.status = RoundStatus.submitting then
        { r with status := RoundStatus.completed, winnerProfileId := some winner }
      else r) }

/-- Status of a round as re-read by `selectWinner`'s verification step. -/
def roundStatusOf (db : DB) (roundId : Nat) : Option RoundStatus :=
  (db.rounds.find? (fun r => decide (r.id = roundId))).map (·.status)

/-- `selectWinner` (GamePage.jsx, lines 392-490).  `subOwner` is the
winning submission's `profile_id` (read in step 2 of the source).
Steps, in source order:
1. client-side judge guard (modeled against the stored round's judge;
   both racing judge tabs pass it);
2. winner roster lookup (throws "Winner not found" when absent);
3. read the winner's score `s` and write `s + 1` — unconditionally,
   before the round update;
4. the conditional round update with `.eq("status", "submitting")`,
   whose matched-row count the code never inspects (a zero-row match is
   not an error);
5. verification: re-read the round and throw unless its status is now
   `completed` — which holds whichever client completed it;
6. schedule `nextRound` (the advance sequence: replenish, rotate judge,
   create next round) after 2 seconds.  The returned Bool reports
   whether step 6 was reached. -/
def gpSelectWinner (db : DB) (roundId judgeId subOwner roomId : Nat) : DB × Bool :=
  match db.rounds.find? (fun r => decide (r.id = roundId)) with
  | none => (db, false)
  | some r =>
    if r.judgeProfileId ≠ judgeId then (db, false)
    else
      match lookupScore db roomId subOwner with
      | none => (db, false)
      | some s =>
        let db1 := setScore db roomId subOwner (s + 1)
        let db2 := completeRoundCAS db1 roundId subOwner
        if roundStatusOf db2 roundId = some RoundStatus.completed then (db2, true)
        else (db2, false)

/-- Room 1 mid-round: round 1 is `submitting` with judge 3; players 1, 2
have score 0; player 2's submission (card 77) is about to win. -/
def dbC1 : DB :=
  { rooms := [⟨1, 1, RoomStatus.playing⟩],
    rounds := [⟨1, 1, 5, 3, none, RoundStatus.submitting⟩],
    roomPlayers := [⟨1, 1, false, 0⟩, ⟨1, 2, false, 0⟩, ⟨1, 3, true, 0⟩],
    playerHands := [],
    submissions := [⟨1, 2, 77⟩] }

/-- C1 (code-bug evaluation): two `selectWinner` calls for the same
round — the judge's two racing tabs, the second running after the first
completed the round — both award the point and both reach the advance
step: after the first call player 2's score is 1, the round is
`completed`, and `nextRound` is scheduled; the second call's conditional
update matches zero rows, yet its verification step still sees
`completed`, so it writes score 2 and schedules `nextRound` again.  The
point award precedes the compare-and-swap and the code never inspects
the update's matched-row count, so the score is incremented twice and
the advance sequence is triggered twice (only the unique index stops the
second round creation). -/
theorem c1_double_resolution_eval :
    lookupScore (gpSelectWinner dbC1 1 3 2 1).1 1 2 = some 1 ∧
      roundStatusOf (gpSelectWinner dbC1 1 3 2 1).1 1 = some RoundStatus.completed ∧
      (gpSelectWinner dbC1 1 3 2 1).2 = true ∧
      lookupScore (gpSelectWinner (gpSelectWinner dbC1 1 3 2 1).1 1 3 2 1).1 1 2 = some 2 ∧
      (gpSelectWinner (gpSelectWinner dbC1 1 3 2 1).1 1 3 2 1).2 = true := by
  decide

/-! ### Match start (`startGame`, GamePage.jsx lines 151-207 and
gameUtils.js lines 3-70) -/

/-- `UPDATE rooms SET status = 'playing' WHERE id = roomId`. -/
def setRoomPlaying (db : DB) (roomId : Nat) : DB :=
  { db with rooms := db.rooms.map (fun rm =>
      if rm.id = roomId then { rm with status := RoomStatus.playing } else rm) }

/-- `UPDATE room_players SET score = 0 WHERE room_id = roomId`. -/
def resetScores (db : DB) (roomId : Nat) : DB :=
  { db with roomPlayers := db.roomPlayers.map (fun rp =>
      if rp.roomId = roomId then { rp with score := 0 } else rp) }

/-- `DELETE FROM player_hands WHERE room_id = roomId`. -/
def clearHands (db : DB) (roomId : Nat) : DB :=
  { db with playerHands := db.playerHands.filter (fun h => decide (¬ h.roomId = roomId)) }

/-- The dealing loop shared by both `startGame`s: player `k` in join
order receives cards `shuffled[10k … 10k+9]` (slices past the end of a
short deck come out short or empty, matching `Array.slice`). -/
def dealHands (shuffled : List Nat) (roomId : Nat) (players : List Nat) : List HandRow :=
  (List.range players.length).flatMap (fun k =>
    ((shuffled.drop (k * 10)).take 10).map (fun c => ⟨roomId, players.getD k 0, c⟩))

/-- `startGame` (GamePage.jsx, lines 151-207), over the client's current
`players` roster (join order) and the store: fewer than 3 players →
error before any write; otherwise set the room to playing, reset scores,
clear the room's hands, check the deck size (erroring — after those
writes — when `whiteCards.length < players.length * 10`), deal 10 cards
to each player, and create the first round with `players[0]` as judge
via `createActiveRound`. -/
def gpStartGame (shuffle : List Nat → List Nat) (db : DB) (roomId : Nat)
    (players : List Nat) (whiteCards : List Nat) (blackCardId newRoundId : Nat) :
    DB × Option String :=
  if players.length < 3 then (db, some "Need at least 3 players to start")
  else
    let db1 := clearHands (resetScores (setRoomPlaying db roomId) roomId) roomId
    if whiteCards.length < players.length * 10 then
      (db1, some "Not enough cards in deck")
    else
      let db2 := { db1 with
        playerHands := db1.playerHands ++ dealHands (shuffle whiteCards) roomId players }
      let res := createActiveRound db2.rounds roomId (players.getD 0 0) blackCardId
        newRoundId false
      ({ db2 with rounds := res.1 }, none)

/-- `startGame` (gameUtils.js, lines 3-70): sets the room to playing
**first**, then reads the roster from the store; an empty roster is the
only player-count check ("No players found in room" — and the playing
write has already happened when it fires); then it flags `players[0]` as
judge, deals 10 cards each (erroring only on an empty white-card pool),
and `startNewRound` inserts the first round with `players[0]` as judge.
There is no minimum-3-players check anywhere in this function. -/
def guStartGame (shuffle : List Nat → List Nat) (db : DB) (roomId : Nat)
    (whiteCards : List Nat) (blackCardId newRoundId : Nat) : DB × Option String :=
  let db1 := setRoomPlaying db roomId
  let players := (db1.roomPlayers.filter (fun rp => decide (rp.roomId = roomId))).map
    (·.profileId)
  if players.length = 0 then (db1, some "No players found in room")
  else
    let db2 := setJudgeFlag db1 roomId (players.getD 0 0)
    if whiteCards.length = 0 then (db2, some "No white cards found for this deck")
    else
      let db3 := { db2 with
        playerHands := db2.playerHands ++ dealHands (shuffle whiteCards) roomId players }
      (dbInsertRound db3
        ⟨newRoundId, roomId, blackCardId, players.getD 0 0, none, RoundStatus.submitting⟩,
       none)

/-- A waiting room with only two players. -/
def dbTwo : DB :=
  { rooms := [⟨1, 1, RoomStatus.waiting⟩],
    rounds := [],
    roomPlayers := [⟨1, 1, false, 0⟩, ⟨1, 2, false, 0⟩],
    playerHands := [],
    submissions := [] }

/-- A waiting room with no players at all. -/
def dbZero : DB :=
  { rooms := [⟨1, 1, RoomStatus.waiting⟩],
    rounds := [],
    roomPlayers := [],
    playerHands := [],
    submissions := [] }

/-- A 20-card white-card pool. -/
def wc20 : List Nat := (List.range 20).map (fun k => 100 + k)

/-- C9 counterexample: the library `startGame` (gameUtils.js) runs a
two-player match start to completion — no `NotEnoughPlayers` failure:
it returns success, the room is playing and the first round exists; and
even on its only failing player check (zero players) the room status has
already been mutated to playing, so "fails … and mutates no state" is
false for this cited implementation (only the GamePage variant checks
`players.length < 3` before writing). -/
theorem c9_startMatch_counterexample :
    ((guStartGame id dbTwo 1 wc20 9 1).2 = none ∧
        (∀ rm ∈ (guStartGame id dbTwo 1 wc20 9 1).1.rooms,
          rm.id = 1 → rm.status = RoomStatus.playing) ∧
        (⟨1, 1, 9, 1, none, RoundStatus.submitting⟩ : RoundRow) ∈
          (guStartGame id dbTwo 1 wc20 9 1).1.rounds) ∧
      ((guStartGame id dbZero 1 wc20 9 1).2 = some "No players found in room" ∧
        (guStartGame id dbZero 1 wc20 9 1).1 ≠ dbZero) := by
  decide

theorem setRoomPlaying_status (db : DB) (roomId : Nat) :
    ∀ rm ∈ (setRoomPlaying db roomId).rooms, rm.id = roomId →
      rm.status = RoomStatus.playing := by
  intro rm hm hid
  simp only [setRoomPlaying, List.mem_map] at hm
  obtain ⟨rm0, hmem0, heq⟩ := hm
  by_cases h : rm0.id = roomId
  · rw [if_pos h] at heq
    rw [← heq]
  · rw [if_neg h] at heq
    subst heq
    exact absurd hid h

theorem resetScores_score (db : DB) (roomId : Nat) :
    ∀ rp ∈ (resetScores db roomId).roomPlayers, rp.roomId = roomId → rp.score = 0 := by
  intro rp hm hid
  simp only [resetScores, List.mem_map] at hm
  obtain ⟨rp0, hmem0, heq⟩ := hm
  by_cases h : rp0.roomId = roomId
  · rw [if_pos h] at heq
    rw [← heq]
  · rw [if_neg h] at heq
    subst heq
    exact absurd hid h

theorem createActiveRound_success (rounds : List RoundRow) (roomId j b i : Nat)
    (h0 : countSubmitting rounds roomId = 0) :
    createActiveRound rounds roomId j b i false =
      (rounds ++ [⟨i, roomId, b, j, none, RoundStatus.submitting⟩],
        some ⟨i, roomId, b, j, none, RoundStatus.submitting⟩) := by
  unfold createActiveRound insertRound
  simp [h0]

/-- C9 amended: the GamePage `startGame` with fewer than 3 players fails
("Need at least 3 players to start") before any write, leaving the
store exactly unchanged; with at least 3 players, enough white cards and
no active round it proceeds: the room is set to playing, every score in
the room is reset to 0, and the first round is created with status
`submitting` and the earliest-joined player (`players[0]`) as judge.
The library `gameUtils.startGame`, also cited by the claim, has no
minimum-player check at all (see the counterexample); its ≥3 gate lives
only in the calling UI. -/
theorem c9_startMatch_contract (shuffle : List Nat → List Nat) (db : DB)
    (roomId : Nat) (players whiteCards : List Nat) (b i : Nat) :
    (players.length < 3 →
        gpStartGame shuffle db roomId players whiteCards b i =
          (db, some "Need at least 3 players to start")) ∧
      (3 ≤ players.length → players.length * 10 ≤ whiteCards.length →
        countSubmitting db.rounds roomId = 0 →
        (gpStartGame shuffle db roomId players whiteCards b i).2 = none ∧
          (∀ rm ∈ (gpStartGame shuffle db roomId players whiteCards b i).1.rooms,
            rm.id = roomId → rm.status = RoomStatus.playing) ∧
          (∀ rp ∈ (gpStartGame shuffle db roomId players whiteCards b i).1.roomPlayers,
            rp.roomId = roomId → rp.score = 0) ∧
          (⟨i, roomId, b, players.getD 0 0, none, RoundStatus.submitting⟩ : RoundRow) ∈
            (gpStartGame shuffle db roomId players whiteCards b i).1.rounds) := by
  constructor
  · intro hlt
    unfold gpStartGame
    rw [if_pos hlt]
  · intro h3 hcards h0
    have hnl : ¬ players.length < 3 := by omega
    have hnc : ¬ whiteCards.length < players.length * 10 := by omega
    simp only [gpStartGame]
    rw [if_neg hnl, if_neg hnc]
    have hrounds : (clearHands (resetScores (setRoomPlaying db roomId) roomId)
        roomId).rounds = db.rounds := rfl
    refine ⟨rfl, ?_, ?_, ?_⟩
    · intro rm hm
      exact setRoomPlaying_status db roomId rm hm
    · intro rp hm
      exact resetScores_score (setRoomPlaying db roomId) roomId rp hm
    · show _ ∈ (createActiveRound db.rounds roomId (players.getD 0 0) b i false).1
      rw [createActiveRound_success db.rounds roomId (players.getD 0 0) b i h0]
      simp

/-- A waiting room with three players, in join order 1, 2, 3. -/
def dbThree : DB :=
  { rooms := [⟨1, 1, RoomStatus.waiting⟩],
    rounds := [],
    roomPlayers := [⟨1, 1, false, 4⟩, ⟨1, 2, false, 2⟩, ⟨1, 3, false, 1⟩],
    playerHands := [],
    submissions := [] }

/-- A 30-card white-card pool. -/
def wc30 : List Nat := (List.range 30).map (fun k => 100 + k)

theorem c9_startMatch_contract_witness :
    gpStartGame id dbThree 1 [1, 2] wc30 9 1 =
        (dbThree, some "Need at least 3 players to start") ∧
      (gpStartGame id dbThree 1 [1, 2, 3] wc30 9 1).2 = none ∧
        (∀ rm ∈ (gpStartGame id dbThree 1 [1, 2, 3] wc30 9 1).1.rooms,
          rm.id = 1 → rm.status = RoomStatus.playing) ∧
        (∀ rp ∈ (gpStartGame id dbThree 1 [1, 2, 3] wc30 9 1).1.roomPlayers,
          rp.roomId = 1 → rp.score = 0) ∧
        (⟨1, 1, 9, ([1, 2, 3] : List Nat).getD 0 0, none, RoundStatus.submitting⟩ : RoundRow) ∈
          (gpStartGame id dbThree 1 [1, 2, 3] wc30 9 1).1.rounds :=
  ⟨(c9_startMatch_contract id dbThree 1 [1, 2] wc30 9 1).1 (by decide),
    (c9_startMatch_contract id dbThree 1 [1, 2, 3] wc30 9 1).2
      (by decide) (by decide) (by decide)⟩

end CAH
